import Mathlib

/-!
Shallow embedding of the go-bank HTTP API (api.go with JWT middleware) and
proofs about its authorization and handler behaviour.

Conventions of the embedding:
* Go `int`/`int64` become `Int`; `string` becomes `String`.
* `os.Getenv("JWT_SECRET")` is passed explicitly as a `secret` parameter, and
  the clock (`time.Now().Unix()` inside the jwt library) as a `now` parameter.
* Fallible Go calls become `Except`/`Option` values.
* The golang-jwt/v4 library calls used by the source (`jwt.Parse` with a
  keyfunc, `MapClaims.Valid`, HMAC signing) are modelled faithfully below;
  the HMAC itself is idealized as an injective tag recording exactly the
  secret and the signed payload, so that signature verification succeeds
  precisely when the token was signed with the same secret over the same
  header and claims.
-/

/-- A JSON value as it appears in a decoded JWT claims map. Go decodes every
JSON number in a `MapClaims` to `float64`; the numbers this program puts in
claims are integers, modelled as `Int`. -/
inductive JVal where
  | jnum (n : Int)
  | jstr (s : String)
  | jbool (b : Bool)
  | jnull
deriving DecidableEq, Repr

/-- A JWT claims map (`jwt.MapClaims`, i.e. `map[string]interface\x7b\x7d`),
modelled as an association list keyed by claim name. -/
abbrev Claims := List (String × JVal)

/-- Signing algorithm declared in a JWT header. `HS256/384/512` are the
`jwt.SigningMethodHMAC` family; the others stand for any non-HMAC method. -/
inductive Alg where
  | HS256
  | HS384
  | HS512
  | RS256
  | ES256
  | algNone
deriving DecidableEq, Repr

/-- Whether the method is an instance of `*jwt.SigningMethodHMAC`
(the type assertion in the keyfunc of `validateJwt`). -/
def Alg.isHMAC : Alg → Bool
  | .HS256 => true
  | .HS384 => true
  | .HS512 => true
  | _ => false

/-- The payload an HMAC tag is computed over: the header's algorithm and the
claims (standing for the base64 signing string `header.payload`). -/
structure SigInput where
  alg : Alg
  claims : Claims
deriving DecidableEq, Repr

/-- Idealized MAC tag: records the secret and signed payload, so comparison of
tags is exactly the question whether the same secret signed the same data
(perfect, collision-free MAC assumption). -/
structure Signature where
  secret : String
  payload : SigInput
deriving DecidableEq, Repr

/-- Computing the HMAC tag over the signing input with a secret
(`token.SignedString([]byte(secret))` / `method.Verify` recomputation). -/
def hmacSign (secret : String) (alg : Alg) (claims : Claims) : Signature :=
  ⟨secret, ⟨alg, claims⟩⟩

/-- A structurally well-formed JWT: header algorithm, claims map, signature. -/
structure Token where
  alg : Alg
  claims : Claims
  sig : Signature
deriving DecidableEq, Repr

/-- The raw value of the `x-jwt-token` header as seen by `jwt.Parse`: either it
splits into three base64 sections (a well-formed token) or it is malformed —
in particular the empty string produced by an absent header. -/
inductive TokenString where
  | malformed
  | wellFormed (t : Token)
deriving DecidableEq, Repr

/-- Failure cases of `jwt.Parse` as used by `validateJwt`. -/
inductive JwtError where
  | malformedToken
  | unexpectedSigningMethod
  | invalidClaims
  | signatureInvalid
deriving DecidableEq, Repr

/-- `jwt.MapClaims.Valid` (golang-jwt/v4): checks the registered claims
`exp`, `iat`, `nbf` when present (non-required mode), against the current
Unix time `now`. A claim stored under any other key — such as this program's
`expiresAt` — is not consulted. A present claim of non-numeric type fails
verification; a numeric value of 0 is treated as unset. -/
def mapClaimsValid (now : Int) (cl : Claims) : Bool :=
  (match cl.lookup "exp" with
   | some (.jnum e) => e == 0 || decide (now < e)
   | some _ => false
   | none => true) &&
  (match cl.lookup "iat" with
   | some (.jnum i) => i == 0 || decide (i ≤ now)
   | some _ => false
   | none => true) &&
  (match cl.lookup "nbf" with
   | some (.jnum n) => n == 0 || decide (n ≤ now)
   | some _ => false
   | none => true)

/-- Signature verification: recompute the HMAC over the token's header and
claims with the shared secret and compare with the token's signature. -/
def verifySig (secret : String) (t : Token) : Bool :=
  t.sig == hmacSign secret t.alg t.claims

/-- `validateJwt(tokenString)`: calls `jwt.Parse` with a keyfunc that rejects
any method that is not `*jwt.SigningMethodHMAC`. Parse order (golang-jwt/v4):
decode (malformed input errors out), keyfunc (a non-HMAC algorithm errors out
before any signature verification is attempted), then claims validation and
signature verification; the token is returned with a nil error exactly when
both succeed. -/
def validateJwt (secret : String) (now : Int) (ts : TokenString) :
    Except JwtError Token :=
  match ts with
  | .malformed => .error .malformedToken
  | .wellFormed t =>
    if t.alg.isHMAC = false then
      .error .unexpectedSigningMethod
    else if mapClaimsValid now t.claims = false then
      .error .invalidClaims
    else if verifySig secret t = false then
      .error .signatureInvalid
    else
      .ok t

/-- The Account record. Modelled from the spec: the repository's type
definitions file is absent from src/ (only callers are present); §3 of the
spec gives the attributes: storage identifier, first and last name, generated
account number (`Number`, the authorization subject), balance, creation
timestamp. -/
structure Account where
  ID : Int
  FirstName : String
  LastName : String
  Number : Int
  Balance : Int
  CreatedAt : Int
deriving DecidableEq, Repr

/-- Body of an account create/update request (`AccountRequest`). Modelled from
the spec: the type is absent from src/; the handlers read exactly the two name
fields from it. -/
structure AccountRequest where
  FirstName : String
  LastName : String
deriving DecidableEq, Repr

/-- Body of a transfer request (`TransferRequest`). Modelled from the spec:
the type is absent from src/; `handleTransfer` only decodes it and echoes it
back, so its fields never influence control flow. -/
structure TransferRequest where
  ToAccount : Int
  Amount : Int
deriving DecidableEq, Repr

/-- The Account Store. Modelled from the spec: the storage implementation is
absent from src/; §2 specifies it as lookup/create/update/delete of accounts
by storage identifier. Modelled as the list of stored accounts. -/
abbrev Store := List Account

/-- Store lookup by storage identifier (`s.store.GetAccountById`). Modelled
from the spec: returns the stored account with that identifier, or an error
when none exists. -/
def getAccountById (store : Store) (id : Int) : Except String Account :=
  match store.find? (fun a => a.ID == id) with
  | some a => .ok a
  | none => .error ("account " ++ toString id ++ " not found")

/-- Store update (`s.store.UpdateAccount`). Modelled from the spec: replaces
the stored record having the given account's identifier. -/
def updateAccount (store : Store) (acc : Account) : Store :=
  store.map (fun a => if a.ID = acc.ID then acc else a)

/-- Store delete (`s.store.DeleteAccount`). Modelled from the spec: removes
the record with the given identifier. -/
def deleteAccount (store : Store) (id : Int) : Store :=
  store.filter (fun a => !(a.ID == id))

/-- `strconv.Atoi`: optional sign followed by at least one decimal digit.
(The int64 range check never matters for the identifiers considered here and
is elided.) -/
def parseDigits (cs : List Char) : Option Nat :=
  match cs with
  | [] => none
  | _ =>
    cs.foldl
      (fun acc c =>
        acc.bind (fun n =>
          if c.isDigit then some (10 * n + (c.toNat - '0'.toNat)) else none))
      (some 0)

/-- `strconv.Atoi` on the raw path-parameter string. -/
def goAtoi (s : String) : Option Int :=
  match s.toList with
  | '+' :: cs => (parseDigits cs).map Int.ofNat
  | '-' :: cs => (parseDigits cs).map (fun n => -(n : Int))
  | cs => (parseDigits cs).map Int.ofNat

/-- `getIdFromQueryParams`: reads `mux.Vars(r)["id"]` and runs `strconv.Atoi`;
on failure it returns the pair (-1, error), on success (id, nil). The second
component is `true` when parsing succeeded. -/
def getIdFromQueryParams (idStr : String) : Int × Bool :=
  match goAtoi idStr with
  | some n => (n, true)
  | none => (-1, false)

/-- A response as produced through `writeJSON`: HTTP status plus JSON body. -/
inductive Body where
  | errObj (msg : String)
  | accountBody (a : Account)
  | accountsBody (l : List Account)
  | idBody (n : Int)
  | transferBody (t : TransferRequest)
deriving DecidableEq, Repr

/-- An HTTP response: status code and encoded body. `Body.errObj msg` encodes
as the JSON object with single field `Error` holding `msg` (the `APIError`
struct). -/
structure Response where
  status : Nat
  body : Body
deriving DecidableEq, Repr

/-- The request data the middleware and the by-id handlers consume: the raw
`x-jwt-token` header value (absent header = the empty string = malformed) and
the raw `id` path variable. -/
structure Request where
  token : TokenString
  idStr : String
deriving DecidableEq, Repr

/-- Outcome of one run of the `withJwtAuth` wrapper: a denial response was
written, the wrapped handler was invoked, or the goroutine panicked (the
unchecked type assertion on `claims["accountNumber"]`). -/
inductive MidOutcome where
  | denied (resp : Response)
  | allowed
  | panicked
deriving DecidableEq, Repr

/-- `withJwtAuth(handleFunc, s)`: per-request authorization check. Mirrors the
source order: read the `x-jwt-token` header, `validateJwt` (a nil token or
parse error — including the absent-header empty string — denies with
"Permission denied"; the second `!token.Valid` check in the source is dead,
since `jwt.Parse` returns a nil error exactly when the token is valid), parse
the `id` path variable, look up the account, compare the account's number with
`int64(claims["accountNumber"].(float64))` — a type assertion that panics when
the claim is absent or not a JSON number — and only on equality invoke the
wrapped handler. -/
def withJwtAuth (secret : String) (now : Int) (store : Store)
    (req : Request) : MidOutcome :=
  match validateJwt secret now req.token with
  | .error _ => .denied ⟨403, .errObj "Permission denied"⟩
  | .ok token =>
    match getIdFromQueryParams req.idStr with
    | (_, false) => .denied ⟨403, .errObj "Invalid token"⟩
    | (userId, true) =>
      match getAccountById store userId with
      | .error _ => .denied ⟨403, .errObj "Invalid token"⟩
      | .ok account =>
        match token.claims.lookup "accountNumber" with
        | some (.jnum n) =>
          if account.Number ≠ n then .denied ⟨403, .errObj "Invalid token"⟩
          else .allowed
        | _ => .panicked

/-- `createJwt(account)`: signs the claims map
`\x7b"expiresAt": 15000, "accountNumber": account.Number\x7d` with HS256 under
the shared secret. Signing itself cannot fail in the model (the Go error case
is key-encoding failure only). -/
def createJwt (secret : String) (account : Account) : TokenString :=
  let claims : Claims :=
    [("expiresAt", .jnum 15000), ("accountNumber", .jnum account.Number)]
  .wellFormed ⟨.HS256, claims, hmacSign secret .HS256 claims⟩

/-- One call into the Account Store, recorded for counting the store
operations a handler performs. -/
inductive StoreOp where
  | getAccounts
  | getAccountById (id : Int)
  | createAccount (a : Account)
  | updateAccount (a : Account)
  | deleteAccount (id : Int)
deriving DecidableEq, Repr

deriving instance DecidableEq for Except

/-- Result of running one handler: the value it returns to
`makeHttpHandleFunc` (an error or the body it wrote with status 200), the
store operations it performed in order, and the store state afterwards. -/
structure HandlerResult where
  resp : Except String Body
  ops : List StoreOp
  post : Store
deriving DecidableEq, Repr

/-- `makeHttpHandleFunc(f)`: the wrapper writes status 400 with
`APIError\x7bError: err.Error()\x7d` when the handler returns an error;
otherwise the handler already wrote its body with status 200. -/
def makeHttpHandleFunc (r : Except String Body) : Response :=
  match r with
  | .ok b => ⟨200, b⟩
  | .error e => ⟨400, .errObj e⟩

/-- `handleUpdateAccount`: parse the id (on failure, return the error
`"invalid id given %d"` formatted with the -1 the failed parse returned),
fetch the account, decode the request body (`body = none` models a JSON
decode failure), overwrite the two name fields, write the record back. -/
def handleUpdateAccount (store : Store) (idStr : String)
    (body : Option AccountRequest) : HandlerResult :=
  match getIdFromQueryParams idStr with
  | (id, false) => ⟨.error ("invalid id given " ++ toString id), [], store⟩
  | (id, true) =>
    match getAccountById store id with
    | .error e => ⟨.error e, [.getAccountById id], store⟩
    | .ok account =>
      match body with
      | none => ⟨.error "json decode error", [.getAccountById id], store⟩
      | some req =>
        let account :=
          { account with FirstName := req.FirstName, LastName := req.LastName }
        ⟨.ok (.accountBody account),
         [.getAccountById id, .updateAccount account],
         updateAccount store account⟩

/-- `handleDeleteAccount`: parse the id (same `"invalid id given %d"` error on
failure) and delete the record. -/
def handleDeleteAccount (store : Store) (idStr : String) : HandlerResult :=
  match getIdFromQueryParams idStr with
  | (id, false) => ⟨.error ("invalid id given " ++ toString id), [], store⟩
  | (id, true) => ⟨.ok (.idBody id), [.deleteAccount id], deleteAccount store id⟩

/-- `handleTransfer`: decodes the request body and echoes it back with status
200; it touches the store not at all. -/
def handleTransfer (store : Store) (body : Option TransferRequest) :
    HandlerResult :=
  match body with
  | none => ⟨.error "json decode error", [], store⟩
  | some t => ⟨.ok (.transferBody t), [], store⟩

/-- Concrete account used by witnesses and counterexamples (the seed account
shape: storage id 1, account number 1001). -/
def acctA : Account := ⟨1, "Papu", "Papu 2", 1001, 0, 0⟩

/-- Second concrete account with a distinct account number. -/
def acctB : Account := ⟨2, "Ana", "Bell", 2002, 50, 0⟩

lemma validate_createJwt (secret : String) (now : Int) (A : Account) :
    validateJwt secret now (createJwt secret A) =
      .ok ⟨.HS256,
           [("expiresAt", .jnum 15000), ("accountNumber", .jnum A.Number)],
           hmacSign secret .HS256
             [("expiresAt", .jnum 15000), ("accountNumber", .jnum A.Number)]⟩ := by
  simp [validateJwt, createJwt, mapClaimsValid, verifySig, Alg.isHMAC, List.lookup]

lemma withJwtAuth_verify_error (secret : String) (now : Int) (store : Store)
    (tok : TokenString) (idS : String) (e : JwtError)
    (h : validateJwt secret now tok = .error e) :
    withJwtAuth secret now store ⟨tok, idS⟩ =
      .denied ⟨403, .errObj "Permission denied"⟩ := by
  simp [withJwtAuth, h]

lemma withJwtAuth_parse_fail (secret : String) (now : Int) (store : Store)
    (tok : TokenString) (idS : String) (t : Token) (i : Int)
    (hv : validateJwt secret now tok = .ok t)
    (hp : getIdFromQueryParams idS = (i, false)) :
    withJwtAuth secret now store ⟨tok, idS⟩ =
      .denied ⟨403, .errObj "Invalid token"⟩ := by
  simp [withJwtAuth, hv, hp]

lemma withJwtAuth_lookup_fail (secret : String) (now : Int) (store : Store)
    (tok : TokenString) (idS : String) (t : Token) (i : Int) (e : String)
    (hv : validateJwt secret now tok = .ok t)
    (hp : getIdFromQueryParams idS = (i, true))
    (hg : getAccountById store i = .error e) :
    withJwtAuth secret now store ⟨tok, idS⟩ =
      .denied ⟨403, .errObj "Invalid token"⟩ := by
  simp [withJwtAuth, hv, hp, hg]

lemma withJwtAuth_subject_mismatch (secret : String) (now : Int) (store : Store)
    (tok : TokenString) (idS : String) (t : Token) (i n : Int) (acc : Account)
    (hv : validateJwt secret now tok = .ok t)
    (hp : getIdFromQueryParams idS = (i, true))
    (hg : getAccountById store i = .ok acc)
    (hc : t.claims.lookup "accountNumber" = some (.jnum n))
    (hne : acc.Number ≠ n) :
    withJwtAuth secret now store ⟨tok, idS⟩ =
      .denied ⟨403, .errObj "Invalid token"⟩ := by
  simp [withJwtAuth, hv, hp, hg, hc, hne]

lemma withJwtAuth_subject_match (secret : String) (now : Int) (store : Store)
    (tok : TokenString) (idS : String) (t : Token) (i : Int) (acc : Account)
    (hv : validateJwt secret now tok = .ok t)
    (hp : getIdFromQueryParams idS = (i, true))
    (hg : getAccountById store i = .ok acc)
    (hc : t.claims.lookup "accountNumber" = some (.jnum acc.Number)) :
    withJwtAuth secret now store ⟨tok, idS⟩ = .allowed := by
  simp [withJwtAuth, hv, hp, hg, hc]

lemma withJwtAuth_allowed_iff (secret : String) (now : Int) (store : Store)
    (tok : TokenString) (idS : String) :
    withJwtAuth secret now store ⟨tok, idS⟩ = .allowed ↔
      ∃ t acc, validateJwt secret now tok = .ok t ∧
        (getIdFromQueryParams idS).2 = true ∧
        getAccountById store (getIdFromQueryParams idS).1 = .ok acc ∧
        t.claims.lookup "accountNumber" = some (.jnum acc.Number) := by
  constructor
  · intro h
    unfold withJwtAuth at h
    split at h
    · cases h
    next t hv =>
      split at h
      · cases h
      next i hp =>
        split at h
        · cases h
        next acc hg =>
          split at h
          next n hc =>
            split at h
            · cases h
            next hnn =>
              push_neg at hnn
              refine ⟨t, acc, hv, ?_, ?_, ?_⟩ <;> simp [hp, hg, hc, hnn]
          · cases h
  · rintro ⟨t, acc, hv, hp2, hg, hc⟩
    rcases hq : getIdFromQueryParams idS with ⟨i, b⟩
    rw [hq] at hp2 hg
    simp at hp2
    subst hp2
    exact withJwtAuth_subject_match secret now store tok idS t i acc hv hq hg hc

lemma find?_map_update (l : List Account) (id : Int) (acc acc' : Account)
    (hf : l.find? (fun a => a.ID == id) = some acc) (hid : acc'.ID = acc.ID) :
    (l.map (fun a => if a.ID = acc'.ID then acc' else a)).find?
        (fun a => a.ID == id) = some acc' := by
  have hacc : acc.ID = id := by simpa using List.find?_some hf
  induction l with
  | nil => simp at hf
  | cons b bs ih =>
    rw [List.map_cons]
    by_cases hb : b.ID = id
    · rw [List.find?_cons_of_pos _ (by simpa using hb)] at hf
      injection hf with hf
      subst hf
      rw [if_pos (by rw [hid])]
      exact List.find?_cons_of_pos _ (by simp [hid, hacc])
    · rw [List.find?_cons_of_neg _ (by simpa using hb)] at hf
      rw [if_neg (by rw [hid, hacc]; exact hb)]
      rw [List.find?_cons_of_neg _ (by simpa using hb)]
      exact ih hf

lemma getAccountById_updateAccount (store : Store) (id : Int)
    (acc acc' : Account)
    (h : getAccountById store id = .ok acc) (hid : acc'.ID = acc.ID) :
    getAccountById (updateAccount store acc') id = .ok acc' := by
  unfold getAccountById at h ⊢
  unfold updateAccount
  cases hf : store.find? (fun a => a.ID == id) with
  | none => rw [hf] at h; cases h
  | some a =>
    rw [hf] at h
    injection h with h
    have hu := find?_map_update store id a acc' hf (by rw [hid, h])
    simp [hu]

lemma withJwtAuth_denied_after_ok (secret : String) (now : Int) (store : Store)
    (tok : TokenString) (idS : String) (t : Token) (resp : Response)
    (hv : validateJwt secret now tok = .ok t)
    (h : withJwtAuth secret now store ⟨tok, idS⟩ = .denied resp) :
    resp = ⟨403, .errObj "Invalid token"⟩ := by
  unfold withJwtAuth at h
  split at h
  next e hv2 => rw [hv] at hv2; cases hv2
  next t' hv2 =>
    split at h
    · injection h with h2; exact h2.symm
    next i hp =>
      split at h
      · injection h with h2; exact h2.symm
      next acc hg =>
        split at h
        next n hc =>
          split at h
          · injection h with h2; exact h2.symm
          · cases h
        · cases h

/-- C1 counterexample: a structurally valid, correctly signed token for the
stored account presented against path identifier 2, which names no stored
account, is denied with body Error = "Invalid token", not the claimed uniform
"Permission denied". -/
theorem denial_body_not_uniform :
    withJwtAuth "s" 0 [acctA] ⟨createJwt "s" acctA, "2"⟩ =
      .denied ⟨403, .errObj "Invalid token"⟩ ∧
    Body.errObj "Invalid token" ≠ Body.errObj "Permission denied" :=
  ⟨by decide, by decide⟩

/-- C1 (amended): every middleware denial carries status 403, and its body is
one of the two literals, with "Permission denied" exactly when token
extraction or verification failed and "Invalid token" for the id-parse,
account-lookup and ownership-mismatch denials. -/
theorem denial_status_and_body (secret : String) (now : Int) (store : Store)
    (tok : TokenString) (idS : String) (resp : Response)
    (h : withJwtAuth secret now store ⟨tok, idS⟩ = .denied resp) :
    resp.status = 403 ∧
    (resp.body = .errObj "Permission denied" ∨
      resp.body = .errObj "Invalid token") ∧
    (resp.body = .errObj "Permission denied" ↔
      ∃ e, validateJwt secret now tok = .error e) := by
  rcases hv : validateJwt secret now tok with e | t
  · rw [withJwtAuth_verify_error secret now store tok idS e hv] at h
    injection h with h2
    subst h2
    exact ⟨rfl, Or.inl rfl, fun _ => ⟨e, rfl⟩, fun _ => rfl⟩
  · have hr := withJwtAuth_denied_after_ok secret now store tok idS t resp hv h
    subst hr
    refine ⟨rfl, Or.inr rfl, ?_, ?_⟩
    · intro hpd; simp at hpd
    · rintro ⟨e, he⟩; simp at he

/-- C1 witness for the amended theorem, at a request with an absent token
header (the malformed empty string) against an empty store. -/
theorem denial_status_and_body_witness :
    (403 : Nat) = 403 ∧
    (Body.errObj "Permission denied" = Body.errObj "Permission denied" ∨
      Body.errObj "Permission denied" = Body.errObj "Invalid token") ∧
    (Body.errObj "Permission denied" = Body.errObj "Permission denied" ↔
      ∃ e, validateJwt "s" 0 .malformed = .error e) := by
  have := denial_status_and_body "s" 0 [] .malformed "1"
    ⟨403, .errObj "Permission denied"⟩ (by decide)
  exact this

/-- C2: evaluation at the failing input. `createJwt` stores the expiry only
under the non-registered key "expiresAt" (value 15000); verification checks
only the registered "exp" claim, so at time 20000 — past the token's stated
expiry — `validateJwt` still accepts the token issued for the stored
account. -/
theorem createJwt_token_never_expires :
    createJwt "s" acctA =
      .wellFormed ⟨.HS256,
        [("expiresAt", .jnum 15000), ("accountNumber", .jnum 1001)],
        hmacSign "s" .HS256
          [("expiresAt", .jnum 15000), ("accountNumber", .jnum 1001)]⟩ ∧
    (15000 : Int) < 20000 ∧
    validateJwt "s" 20000 (createJwt "s" acctA) =
      .ok ⟨.HS256,
        [("expiresAt", .jnum 15000), ("accountNumber", .jnum 1001)],
        hmacSign "s" .HS256
          [("expiresAt", .jnum 15000), ("accountNumber", .jnum 1001)]⟩ :=
  ⟨rfl, by decide, rfl⟩

/-- C3: ownership enforcement. A token issued for account A is denied against
the path identifier resolving to a B with a different account number and
allowed against A's own; in general the middleware allows exactly when the
token verifies, the identifier parses, the lookup succeeds, and the token's
accountNumber claim equals the looked-up account's number. -/
theorem ownership_enforcement (secret : String) (now : Int) (store : Store)
    (idA idB : String) (iA iB : Int) (A B : Account)
    (hA : getIdFromQueryParams idA = (iA, true))
    (hB : getIdFromQueryParams idB = (iB, true))
    (hgA : getAccountById store iA = .ok A)
    (hgB : getAccountById store iB = .ok B)
    (hne : A.Number ≠ B.Number) :
    withJwtAuth secret now store ⟨createJwt secret A, idB⟩ =
      .denied ⟨403, .errObj "Invalid token"⟩ ∧
    withJwtAuth secret now store ⟨createJwt secret A, idA⟩ = .allowed ∧
    (∀ tok idS, withJwtAuth secret now store ⟨tok, idS⟩ = .allowed ↔
      ∃ t acc, validateJwt secret now tok = .ok t ∧
        (getIdFromQueryParams idS).2 = true ∧
        getAccountById store (getIdFromQueryParams idS).1 = .ok acc ∧
        t.claims.lookup "accountNumber" = some (.jnum acc.Number)) := by
  have hv := validate_createJwt secret now A
  refine ⟨?_, ?_, fun tok idS => withJwtAuth_allowed_iff secret now store tok idS⟩
  · exact withJwtAuth_subject_mismatch secret now store _ idB _ iB A.Number B
      hv hB hgB (by simp [List.lookup]) (fun heq => hne heq.symm)
  · exact withJwtAuth_subject_match secret now store _ idA _ iA A
      hv hA hgA (by simp [List.lookup])

/-- C3 witness: two concrete stored accounts with numbers 1001 and 2002; the
token for the first is denied against storage id 2 and allowed against 1. -/
theorem ownership_enforcement_witness :
    withJwtAuth "s" 0 [acctA, acctB] ⟨createJwt "s" acctA, "2"⟩ =
      .denied ⟨403, .errObj "Invalid token"⟩ ∧
    withJwtAuth "s" 0 [acctA, acctB] ⟨createJwt "s" acctA, "1"⟩ = .allowed :=
  ⟨(ownership_enforcement "s" 0 [acctA, acctB] "1" "2" 1 2 acctA acctB
      (by decide) (by decide) (by decide) (by decide) (by decide)).1,
   (ownership_enforcement "s" 0 [acctA, acctB] "1" "2" 1 2 acctA acctB
      (by decide) (by decide) (by decide) (by decide) (by decide)).2.1⟩

/-- C4: algorithm pinning. Any well-formed token whose header algorithm is
outside the HMAC family is rejected with the keyfunc's
unexpected-signing-method error, for every signature value — the signature
is never examined. -/
theorem algorithm_pinning (secret : String) (now : Int) (t : Token)
    (h : t.alg.isHMAC = false) :
    validateJwt secret now (.wellFormed t) = .error .unexpectedSigningMethod := by
  simp [validateJwt, h]

/-- C4 witness: an otherwise well-formed RS256 token, even correctly signed
over its own contents, is rejected. -/
theorem algorithm_pinning_witness :
    Alg.isHMAC .RS256 = false ∧
    validateJwt "s" 0 (.wellFormed ⟨.RS256, [("accountNumber", .jnum 1001)],
        hmacSign "s" .RS256 [("accountNumber", .jnum 1001)]⟩) =
      .error .unexpectedSigningMethod :=
  ⟨rfl, algorithm_pinning "s" 0 _ rfl⟩

/-- C5: round-trip. Verifying a token issued by createJwt with the same
shared secret succeeds — at every verification time, in particular before
expiry — and the accountNumber claim of the verified token is the issuing
account's number. -/
theorem issue_verify_roundtrip (secret : String) (now : Int) (A : Account) :
    ∃ t, validateJwt secret now (createJwt secret A) = .ok t ∧
      t.claims.lookup "accountNumber" = some (.jnum A.Number) :=
  ⟨_, validate_createJwt secret now A, by simp [List.lookup]⟩

/-- C6: per-request short-circuiting. A verification failure terminates with
the "Permission denied" response whatever the path or store hold; after a
successful verification, an unparsable identifier, and then a failed account
lookup (the non-existent-target case) each terminate with a denial response
— never a crash; and the wrapped handler runs only when every step through
the ownership comparison succeeded. -/
theorem middleware_short_circuit (secret : String) (now : Int) (store : Store)
    (tok : TokenString) (idS : String) :
    (∀ e, validateJwt secret now tok = .error e →
      withJwtAuth secret now store ⟨tok, idS⟩ =
        .denied ⟨403, .errObj "Permission denied"⟩) ∧
    (∀ t i, validateJwt secret now tok = .ok t →
      getIdFromQueryParams idS = (i, false) →
      withJwtAuth secret now store ⟨tok, idS⟩ =
        .denied ⟨403, .errObj "Invalid token"⟩) ∧
    (∀ t i e, validateJwt secret now tok = .ok t →
      getIdFromQueryParams idS = (i, true) →
      getAccountById store i = .error e →
      withJwtAuth secret now store ⟨tok, idS⟩ =
        .denied ⟨403, .errObj "Invalid token"⟩) ∧
    (withJwtAuth secret now store ⟨tok, idS⟩ = .allowed →
      ∃ t acc, validateJwt secret now tok = .ok t ∧
        (getIdFromQueryParams idS).2 = true ∧
        getAccountById store (getIdFromQueryParams idS).1 = .ok acc ∧
        t.claims.lookup "accountNumber" = some (.jnum acc.Number)) :=
  ⟨fun e hv => withJwtAuth_verify_error secret now store tok idS e hv,
   fun t i hv hp => withJwtAuth_parse_fail secret now store tok idS t i hv hp,
   fun t i e hv hp hg =>
     withJwtAuth_lookup_fail secret now store tok idS t i e hv hp hg,
   fun h => (withJwtAuth_allowed_iff secret now store tok idS).mp h⟩

/-- C6 witness: the non-existent-target conjunct at a concrete input — a
correctly signed, unexpired token for the stored account, presented against
identifier 7 which names no stored account, yields the denial response. -/
theorem middleware_short_circuit_witness :
    withJwtAuth "s" 0 [acctA] ⟨createJwt "s" acctA, "7"⟩ =
      .denied ⟨403, .errObj "Invalid token"⟩ :=
  (middleware_short_circuit "s" 0 [acctA] (createJwt "s" acctA) "7").2.2.1
    _ 7 _ rfl (by decide) rfl

/-- C7: the unchecked type assertion. A token correctly signed with the
shared secret whose claims map lacks an accountNumber entry passes
verification, yet the middleware run on it against an existing stored
account panics at the ownership comparison instead of producing a deny
response. -/
theorem claims_type_assertion_panics :
    validateJwt "s" 0 (.wellFormed ⟨.HS256, [("expiresAt", .jnum 15000)],
        hmacSign "s" .HS256 [("expiresAt", .jnum 15000)]⟩) =
      .ok ⟨.HS256, [("expiresAt", .jnum 15000)],
        hmacSign "s" .HS256 [("expiresAt", .jnum 15000)]⟩ ∧
    withJwtAuth "s" 0 [acctA]
      ⟨.wellFormed ⟨.HS256, [("expiresAt", .jnum 15000)],
        hmacSign "s" .HS256 [("expiresAt", .jnum 15000)]⟩, "1"⟩ = .panicked :=
  ⟨rfl, by decide⟩

/-- C8: the update handler's frame. After handleUpdateAccount on an existing
account, the record stored under that identifier carries the request's first
and last name and is unchanged in identifier, account number, balance and
creation timestamp. -/
theorem update_preserves_frame (store : Store) (idStr : String)
    (req : AccountRequest) (id : Int) (acc : Account)
    (hq : getIdFromQueryParams idStr = (id, true))
    (hg : getAccountById store id = .ok acc) :
    ∃ acc',
      getAccountById (handleUpdateAccount store idStr (some req)).post id =
        .ok acc' ∧
      acc'.ID = acc.ID ∧ acc'.Number = acc.Number ∧
      acc'.Balance = acc.Balance ∧ acc'.CreatedAt = acc.CreatedAt ∧
      acc'.FirstName = req.FirstName ∧ acc'.LastName = req.LastName := by
  refine ⟨{acc with FirstName := req.FirstName, LastName := req.LastName},
    ?_, rfl, rfl, rfl, rfl, rfl, rfl⟩
  have hpost : (handleUpdateAccount store idStr (some req)).post =
      updateAccount store
        {acc with FirstName := req.FirstName, LastName := req.LastName} := by
    simp [handleUpdateAccount, hq, hg]
  rw [hpost]
  exact getAccountById_updateAccount store id acc _ hg rfl

/-- C8 witness: updating the concrete stored account 1 with new names keeps
its identifier, number, balance and timestamp. -/
theorem update_preserves_frame_witness :
    ∃ acc',
      getAccountById
        (handleUpdateAccount [acctA] "1" (some ⟨"New", "Name"⟩)).post 1 =
        .ok acc' ∧
      acc'.ID = acctA.ID ∧ acc'.Number = acctA.Number ∧
      acc'.Balance = acctA.Balance ∧ acc'.CreatedAt = acctA.CreatedAt ∧
      acc'.FirstName = "New" ∧ acc'.LastName = "Name" :=
  update_preserves_frame [acctA] "1" ⟨"New", "Name"⟩ 1 acctA
    (by decide) (by decide)

/-- C9 counterexample: handleTransfer performs zero store operations and
handleUpdateAccount performs two on its success path; neither performs
exactly one. -/
theorem store_ops_not_exactly_one :
    (handleTransfer [acctA] (some ⟨2, 50⟩)).ops.length = 0 ∧
    (handleUpdateAccount [acctA] "1" (some ⟨"New", "Name"⟩)).ops.length = 2 ∧
    ¬ (handleTransfer [acctA] (some ⟨2, 50⟩)).ops.length = 1 ∧
    ¬ (handleUpdateAccount [acctA] "1" (some ⟨"New", "Name"⟩)).ops.length = 1 :=
  by decide

/-- C9 (amended): handleTransfer performs no store operation at all, and
handleUpdateAccount on an existing account performs exactly two in order — a
read of the target record followed by the write-back of the renamed
record. -/
theorem store_ops_counts (store : Store) (idStr : String)
    (tbody : Option TransferRequest) (req : AccountRequest) :
    (handleTransfer store tbody).ops = [] ∧
    (∀ id acc, getIdFromQueryParams idStr = (id, true) →
      getAccountById store id = .ok acc →
      (handleUpdateAccount store idStr (some req)).ops =
        [.getAccountById id,
         .updateAccount
           {acc with FirstName := req.FirstName, LastName := req.LastName}]) := by
  constructor
  · cases tbody <;> rfl
  · intro id acc hq hg
    simp [handleUpdateAccount, hq, hg]

/-- C9 witness for the amended count theorem at concrete inputs. -/
theorem store_ops_counts_witness :
    (handleTransfer [acctA] (some ⟨2, 50⟩)).ops = [] ∧
    (handleUpdateAccount [acctA] "1" (some ⟨"New", "Name"⟩)).ops =
      [.getAccountById 1, .updateAccount ⟨1, "New", "Name", 1001, 0, 0⟩] :=
  ⟨(store_ops_counts [acctA] "1" (some ⟨2, 50⟩) ⟨"New", "Name"⟩).1,
   (store_ops_counts [acctA] "1" (some ⟨2, 50⟩) ⟨"New", "Name"⟩).2 1 acctA
     (by decide) (by decide)⟩

/-- C10 counterexample: a delete request whose id parameter is absent (the
empty string does not parse) yields status 400 with body Error =
"invalid id given -1" — the -1 sentinel of the failed parse is formatted
into the message, so the body is not the claimed exact literal. -/
theorem invalid_id_body_exact :
    makeHttpHandleFunc (handleDeleteAccount [acctA] "").resp =
      ⟨400, .errObj "invalid id given -1"⟩ ∧
    (⟨400, .errObj "invalid id given -1"⟩ : Response) ≠
      ⟨400, .errObj "invalid id given"⟩ :=
  ⟨by decide, by decide⟩

/-- C10 (amended): on the unauthorized delete route, every id parameter that
does not parse as a decimal integer produces status 400 with body Error =
"invalid id given -1". -/
theorem invalid_id_response (store : Store) (idStr : String)
    (h : goAtoi idStr = none) :
    makeHttpHandleFunc (handleDeleteAccount store idStr).resp =
      ⟨400, .errObj "invalid id given -1"⟩ := by
  simp [handleDeleteAccount, getIdFromQueryParams, h, makeHttpHandleFunc]
  rfl

/-- C10 witness: the amended response at the concrete unparsable id "abc". -/
theorem invalid_id_response_witness :
    makeHttpHandleFunc (handleDeleteAccount [acctA] "abc").resp =
      ⟨400, .errObj "invalid id given -1"⟩ :=
  invalid_id_response [acctA] "abc" (by decide)
